import Mathlib

/-!
Shallow embedding of the mip-dapp public timeline feed:
`src/hooks/use-public-timeline.ts` (collection loader and descending
comparator) and `src/components/timeline.tsx` (filter/sort/paginate engine).

JavaScript platform functions are modelled as parameters:
`pd : String → Option Int` models `Date.parse` / `new Date(s).getTime()`
(`none` = NaN), `pn : String → Option Int` models `Number(s)` on strings
(`none` = NaN), `lc : String → String → Int` models
`String.prototype.localeCompare`.  A comparator value of `none` models a
NaN comparator result, which ECMAScript's SortCompare treats as `+0`.
-/

namespace MipDapp

/-- Creator sub-record of an asset: name and verified flag. -/
structure Creator where
  name : String
  verified : Bool
deriving DecidableEq, Repr

/-- The fields of `AssetIP` consumed by the timeline code.  Fields that the
code guards with truthiness / nullish checks (`registrationDate`,
`timestamp`, `tokenId`, `id`) are modelled as `Option String`
(`none` = absent / undefined). -/
structure Asset where
  id : Option String
  title : String
  description : String
  type : String
  tags : String
  licenseType : String
  creator : Creator
  registrationDate : Option String
  timestamp : Option String
  tokenId : Option String
  slug : String
deriving DecidableEq, Repr

/-- `charsStartWith pat cs` : `pat` is an initial segment of `cs`. -/
def charsStartWith : List Char → List Char → Bool
  | [], _ => true
  | _ :: _, [] => false
  | a :: as, b :: bs => a == b && charsStartWith as bs

/-- `charsContain pat cs` : `pat` occurs contiguously inside `cs`
(the semantics of JavaScript `String.prototype.includes`). -/
def charsContain (pat : List Char) : List Char → Bool
  | [] => charsStartWith pat []
  | c :: cs => charsStartWith pat (c :: cs) || charsContain pat cs

/-- Model of `s.includes(t)` on JavaScript strings. -/
def strIncludes (s t : String) : Bool :=
  charsContain t.data s.data

/-- One pass of `.replace(/\s+/g, "-")`: each maximal whitespace run
becomes a single hyphen.  The boolean records whether the previous
character was whitespace. -/
def squashWs : Bool → List Char → List Char
  | _, [] => []
  | prevWs, c :: cs =>
    if c.isWhitespace then
      if prevWs then squashWs true cs else '-' :: squashWs true cs
    else c :: squashWs false cs

/-- `asset.licenseType.toLowerCase().replace(/\s+/g, "-")` from the
license filter in `timeline.tsx`. -/
def licenseSlug (s : String) : String :=
  ⟨squashWs false s.toLower.data⟩

/-- `new Date(o).getTime()` / `Date.parse(o)` on an optional string field:
absent (`undefined`) and the empty string both yield NaN (`none`), as does
an unparsable string (`pd s = none`). -/
def dateKey (pd : String → Option Int) : Option String → Option Int
  | none => none
  | some s => if s = "" then none else pd s

/-- Effective order time of an asset, from `sortAssetsDesc` in
`use-public-timeline.ts`: registration date when truthy and parsable,
else the generic timestamp when truthy and parsable, else 0. -/
def effTime (pd : String → Option Int) (a : Asset) : Int :=
  match dateKey pd a.registrationDate with
  | some t => t
  | none =>
    match dateKey pd a.timestamp with
    | some t => t
    | none => 0

/-- `Number(a.tokenId ?? a.id ?? 0)` from `sortAssetsDesc`
(`none` = NaN: present but unparsable). -/
def numKey (pn : String → Option Int) (a : Asset) : Option Int :=
  match a.tokenId with
  | some s => pn s
  | none =>
    match a.id with
    | some s => pn s
    | none => some 0

/-- JavaScript subtraction on possibly-NaN numbers: NaN propagates. -/
def jsSubKey : Option Int → Option Int → Option Int
  | some a, some b => some (a - b)
  | _, _ => none

/-- ECMAScript SortCompare on a comparator result: NaN is treated as +0. -/
def cmpVal : Option Int → Int
  | some v => v
  | none => 0

/-- `sortAssetsDesc` from `use-public-timeline.ts`: compare by effective
time descending (`bTime - aTime`); on an exact time tie, by
`Number(tokenId ?? id ?? 0)` descending (`bId - aId`, NaN-propagating). -/
def sortAssetsDesc (pd pn : String → Option Int) (a b : Asset) : Option Int :=
  let aTime := effTime pd a
  let bTime := effTime pd b
  if bTime ≠ aTime then some (bTime - aTime)
  else jsSubKey (numKey pn b) (numKey pn a)

/-- Stable insertion of `x` (an element originally earlier in the list)
into an already-sorted list: `x` goes before the first element it
compares `≤ 0` against, so equal elements keep their original order.
Models a stable ECMAScript `Array.prototype.sort`. -/
def insertC {α : Type} (c : α → α → Int) (x : α) : List α → List α
  | [] => [x]
  | y :: ys => if c x y ≤ 0 then x :: y :: ys else y :: insertC c x ys

/-- Stable comparator sort (insertion sort), modelling
`Array.prototype.sort(comparefn)`. -/
def sortJs {α : Type} (c : α → α → Int) (l : List α) : List α :=
  l.foldr (insertC c) []

/-- `FilterState` from `asset-filter-drawer` as used by `timeline.tsx`. -/
structure FilterState where
  search : String
  assetTypes : List String
  licenses : List String
  verifiedOnly : Bool
  dateRange : String
  sortBy : String
  tags : List String
  priceRange : Int × Int
deriving DecidableEq, Repr

/-- `defaultFilters` constant from `timeline.tsx`. -/
def defaultFilters : FilterState :=
  { search := ""
    assetTypes := []
    licenses := []
    verifiedOnly := false
    dateRange := "all"
    sortBy := "recent"
    tags := []
    priceRange := (0, 100) }

/-- `ASSETS_PER_PAGE` constant from `timeline.tsx`. -/
def ASSETS_PER_PAGE : Nat := 10

/-- The search predicate of the search filter in `filteredAssets`:
case-insensitive substring match on title, description, creator name, or
tag string. -/
def searchMatch (q : String) (a : Asset) : Bool :=
  strIncludes a.title.toLower q.toLower ||
  strIncludes a.description.toLower q.toLower ||
  strIncludes a.creator.name.toLower q.toLower ||
  strIncludes a.tags.toLower q.toLower

/-- The license predicate of the license filter: bidirectional substring
match between each selected license and the asset's license slug. -/
def licenseMatch (selected : List String) (a : Asset) : Bool :=
  selected.any fun license =>
    strIncludes (licenseSlug a.licenseType) license ||
    strIncludes license (licenseSlug a.licenseType)

/-- The tag predicate of the tag filter: the asset's tag string contains
some selected tag, case-insensitively. -/
def tagMatch (selected : List String) (a : Asset) : Bool :=
  selected.any fun tag => strIncludes a.tags.toLower tag.toLower

/-- The filtering stage of `filteredAssets` in `timeline.tsx`: the five
guarded `.filter` passes (search, asset types, licenses, verified-only,
tags), before the sort switch. -/
def filterOnly (assets : List Asset) (f : FilterState) : List Asset :=
  let l1 := if f.search ≠ "" then assets.filter (searchMatch f.search) else assets
  let l2 :=
    if f.assetTypes.length > 0 then
      l1.filter fun a => f.assetTypes.contains a.type.toLower
    else l1
  let l3 := if f.licenses.length > 0 then l2.filter (licenseMatch f.licenses) else l2
  let l4 := if f.verifiedOnly then l3.filter fun a => a.creator.verified else l3
  if f.tags.length > 0 then l4.filter (tagMatch f.tags) else l4

/-- The `popular` sort comparator from `filteredAssets`:
`new Date(b.timestamp).getTime() - new Date(a.timestamp).getTime()`,
with NaN comparator results treated as +0 by SortCompare. -/
def popularCmp (pd : String → Option Int) (a b : Asset) : Int :=
  cmpVal (jsSubKey (dateKey pd b.timestamp) (dateKey pd a.timestamp))

/-- The `trending` sort comparator from `filteredAssets`:
`new Date(b.registrationDate).getTime() - new Date(a.registrationDate).getTime()`. -/
def trendingCmp (pd : String → Option Int) (a b : Asset) : Int :=
  cmpVal (jsSubKey (dateKey pd b.registrationDate) (dateKey pd a.registrationDate))

/-- `filteredAssets` from `timeline.tsx`: the five filter passes followed
by the sort switch on `filters.sortBy` (`alphabetical` by locale title
comparison, `popular` by timestamp descending, `trending` by registration
date descending, anything else left in incoming order). -/
def filteredAssets (pd _pn : String → Option Int) (lc : String → String → Int)
    (assets : List Asset) (f : FilterState) : List Asset :=
  let base := filterOnly assets f
  if f.sortBy = "alphabetical" then sortJs (fun a b => lc a.title b.title) base
  else if f.sortBy = "popular" then sortJs (popularCmp pd) base
  else if f.sortBy = "trending" then sortJs (trendingCmp pd) base
  else base

/-- `paginatedAssets` from `timeline.tsx`:
`filteredAssets.slice(0, currentPage * ASSETS_PER_PAGE)`. -/
def paginatedAssets (filtered : List Asset) (currentPage : Nat) : List Asset :=
  filtered.take (currentPage * ASSETS_PER_PAGE)

/-- `activeFilterCount` from `timeline.tsx`: the seven-element array with
falsy entries encoded as 0, then `.filter(Boolean).reduce((a, b) => a + b, 0)`. -/
def activeFilterCount (f : FilterState) : Nat :=
  ([(if f.search ≠ "" then 1 else 0),
    f.assetTypes.length,
    f.licenses.length,
    (if f.verifiedOnly then 1 else 0),
    (if f.dateRange ≠ "all" then 1 else 0),
    (if f.sortBy ≠ "recent" then 1 else 0),
    f.tags.length].filter (fun n => n != 0)).foldl (· + ·) 0

/-- The pagination state of `Timeline`: `currentPage`, `isPaging`,
`hasMore`. -/
structure PagState where
  page : Nat
  isPaging : Bool
  hasMore : Bool
deriving DecidableEq, Repr

/-- `loadMore` from `timeline.tsx`, as the post-state after the settling
delay, with `filteredCount` the captured `filteredAssets.length`: a no-op
when an advance is in flight or `hasMore` is false; otherwise flip
`hasMore` false when `totalAvailable - currentPage * 10 ≤ 0`, else
increment the page, clearing `isPaging` either way. -/
def loadMore (filteredCount : Nat) (s : PagState) : PagState :=
  if s.isPaging || !s.hasMore then s
  else
    let nextPageAssets : Int := (filteredCount : Int) - (s.page : Int) * (ASSETS_PER_PAGE : Int)
    if nextPageAssets ≤ 0 then { s with hasMore := false, isPaging := false }
    else { s with page := s.page + 1, isPaging := false }

/-- The filter-change reset effect from `timeline.tsx`
(`useEffect(..., [filters])`): when the configuration differs from the
previous one it sets `currentPage` to 1 and `hasMore` to true.  A by-value
change of the configuration forces a new object, so the dependency
comparison is modelled by value. -/
def resetOnFiltersChange (oldF newF : FilterState) (s : PagState) : PagState :=
  if oldF = newF then s else { s with page := 1, hasMore := true }

/-- `toggleExpanded` from `timeline.tsx`: delete the id when present,
insert it when absent. -/
def toggleExpanded (assetId : String) (prev : Finset String) : Finset String :=
  if assetId ∈ prev then prev.erase assetId else insert assetId prev

/-- The loader state of `usePublicTimeline`: `allAssets`, `isLoading`,
`error`, and the `fetchedRef` one-shot flag. -/
structure LoaderState where
  assets : List Asset
  isLoading : Bool
  error : Option String
  fetched : Bool
deriving DecidableEq, Repr

/-- Initial loader state of `usePublicTimeline`. -/
def initLoader : LoaderState :=
  { assets := [], isLoading := false, error := none, fetched := false }

/-- `loadCollectionOnce` from `use-public-timeline.ts`, as a transition on
the loader state.  `outcome` is the result of
`collectionsService.getCollectionAssets` (`Except.error e` carries
`e?.message`).  The returned boolean records whether a request was
performed (false when the one-shot guard returned early). -/
def loadCollectionOnce (pd pn : String → Option Int) (s : LoaderState)
    (outcome : Except (Option String) (List Asset)) : LoaderState × Bool :=
  if s.fetched then (s, false)
  else
    match outcome with
    | Except.ok assets =>
      ({ assets := sortJs (fun a b => cmpVal (sortAssetsDesc pd pn a b)) assets
         isLoading := false
         error := none
         fetched := true }, true)
    | Except.error e =>
      ({ assets := []
         isLoading := false
         error := some (e.getD "Failed to load timeline")
         fetched := false }, true)

/-- Abstract fetch-concurrency state for the loader: the `fetchedRef` flag
and the number of `getCollectionAssets` calls currently in flight. -/
structure FetchSys where
  fetched : Bool
  inFlight : Nat
deriving DecidableEq, Repr

/-- A fetch trigger (mount effect or explicit `refetch`): the guard
`if (fetchedRef.current) return` runs synchronously, then the request is
issued and suspends. -/
def fetchTrigger (s : FetchSys) : FetchSys :=
  if s.fetched then s else { s with inFlight := s.inFlight + 1 }

/-- Resolution of an in-flight request: on success `fetchedRef.current`
is set to true; on failure it is left unchanged. -/
def fetchResolve (success : Bool) (s : FetchSys) : FetchSys :=
  { fetched := s.fetched || success, inFlight := s.inFlight - 1 }

/-! Concrete instances of the abstract platform functions, used to
evaluate the development on explicit inputs. -/

/-- Accumulating decimal parser over characters; any non-digit yields
`none`. -/
def natOfCharsAux : Nat → List Char → Option Nat
  | acc, [] => some acc
  | acc, c :: cs =>
    if c.isDigit then natOfCharsAux (acc * 10 + (c.toNat - 48)) cs else none

/-- A concrete parse of decimal literals, `none` on anything else. -/
def intOfString (s : String) : Option Int :=
  match s.data with
  | [] => none
  | c :: cs => (natOfCharsAux 0 (c :: cs)).map Int.ofNat

/-- A concrete date parser: decimal literals parse, everything else is NaN. -/
def pdc : String → Option Int := intOfString

/-- A concrete `Number` on strings: decimal literals parse, else NaN. -/
def pnc : String → Option Int := intOfString

/-- A concrete locale comparison: plain lexicographic order. -/
def lcc : String → String → Int := fun a b =>
  if a < b then -1 else if b < a then 1 else 0

/-- A sample asset with registration date "5". -/
def assetR5 : Asset :=
  { id := some "1", title := "alpha", description := "d", type := "art"
    tags := "art,photo", licenseType := "MIT", creator := { name := "n", verified := true }
    registrationDate := some "5", timestamp := none, tokenId := some "7", slug := "a" }

/-- A sample asset with registration date "9". -/
def assetR9 : Asset :=
  { id := some "2", title := "beta", description := "d", type := "art"
    tags := "art", licenseType := "MIT", creator := { name := "n", verified := false }
    registrationDate := some "9", timestamp := none, tokenId := some "3", slug := "b" }

/-- A sample asset with every optional field absent. -/
def assetBare : Asset :=
  { id := none, title := "gamma", description := "", type := "art"
    tags := "", licenseType := "", creator := { name := "", verified := false }
    registrationDate := none, timestamp := none, tokenId := none, slug := "c" }

/-- A sample asset whose generic timestamp is unparsable. -/
def assetTsBad : Asset :=
  { assetBare with title := "x", timestamp := some "zz" }

/-- A sample asset whose generic timestamp parses to 100. -/
def assetTs100 : Asset :=
  { assetBare with title := "y", timestamp := some "100" }

/-! Helper lemmas shared by the claim theorems. -/

/-- Dropping the zero entries of a list of naturals does not change its
left sum. -/
theorem filter_nonzero_foldl (l : List Nat) :
    ∀ acc : Nat, (l.filter (fun n => n != 0)).foldl (· + ·) acc = l.foldl (· + ·) acc := by
  induction l with
  | nil => intro acc; rfl
  | cons c cs ih =>
    intro acc
    by_cases hc : c = 0
    · subst hc; simpa using ih acc
    · have : (c != 0) = true := by simpa using hc
      simp [List.filter, this, ih]

/-- Stable insertion produces a permutation of consing the element. -/
theorem insertC_perm {α : Type} (c : α → α → Int) (x : α) (l : List α) :
    (insertC c x l).Perm (x :: l) := by
  induction l with
  | nil => exact List.Perm.refl _
  | cons y ys ih =>
    by_cases h : c x y ≤ 0
    · simp [insertC, h]
    · simp only [insertC, h, if_false]
      exact (List.Perm.cons y ih).trans (List.Perm.swap x y ys)

/-- The comparator sort returns a permutation of its input. -/
theorem sortJs_perm {α : Type} (c : α → α → Int) (l : List α) :
    (sortJs c l).Perm l := by
  induction l with
  | nil => exact List.Perm.refl _
  | cons x xs ih =>
    exact (insertC_perm c x (sortJs c xs)).trans (List.Perm.cons x ih)

/-- A conditional filter pass yields a sublist of its input. -/
theorem ite_filter_sublist {α : Type} (c : Prop) [Decidable c] (p : α → Bool) (l : List α) :
    (if c then l.filter p else l).Sublist l := by
  split
  · exact List.filter_sublist l
  · exact List.Sublist.refl l

/-- The five filter passes yield a sublist of the input collection. -/
theorem filterOnly_sublist (assets : List Asset) (f : FilterState) :
    (filterOnly assets f).Sublist assets := by
  unfold filterOnly
  exact (ite_filter_sublist _ _ _).trans ((ite_filter_sublist _ _ _).trans
    ((ite_filter_sublist _ _ _).trans ((ite_filter_sublist _ _ _).trans
      (ite_filter_sublist _ _ _))))

/-! Claim theorems. -/

/-- C1: for every filter configuration, `activeFilterCount` returns the
sum of: 1 if the search string is non-empty, the number of selected asset
types, the number of selected licenses, 1 if verified-only, 1 if the date
range differs from `"all"`, 1 if the sort mode differs from `"recent"`,
and the number of selected tags — the price range never contributing; in
particular it is 3 for `{search := "cat", tags := ["art", "photo"]}` and 0
for the default configuration. -/
theorem activeFilterCount_correct :
    (∀ f : FilterState,
      activeFilterCount f =
        (if f.search ≠ "" then 1 else 0) + f.assetTypes.length + f.licenses.length +
        (if f.verifiedOnly then 1 else 0) + (if f.dateRange ≠ "all" then 1 else 0) +
        (if f.sortBy ≠ "recent" then 1 else 0) + f.tags.length) ∧
    activeFilterCount { defaultFilters with search := "cat", tags := ["art", "photo"] } = 3 ∧
    activeFilterCount defaultFilters = 0 := by
  refine ⟨?_, by decide, by decide⟩
  intro f
  unfold activeFilterCount
  rw [filter_nonzero_foldl]
  simp only [List.foldl]
  omega

/-- C2: the descending timeline comparator `sortAssetsDesc` orders assets
by effective time descending (later time sorts first), where the
effective time is the parsed registration date, falling back to the
parsed generic timestamp when the registration date is absent or
unparsable, and to 0 when both are; on an exact time tie it compares the
numeric token identifier descending, falling back to the numeric
identifier when the token identifier is absent, defaulting to 0 when both
are absent. -/
theorem sortAssetsDesc_orders_time_then_id
    (pd pn : String → Option Int) (a b : Asset) :
    (effTime pd a < effTime pd b → 0 < cmpVal (sortAssetsDesc pd pn a b)) ∧
    (effTime pd b < effTime pd a → cmpVal (sortAssetsDesc pd pn a b) < 0) ∧
    (effTime pd a = effTime pd b →
      sortAssetsDesc pd pn a b = jsSubKey (numKey pn b) (numKey pn a)) ∧
    (dateKey pd a.registrationDate = none →
      effTime pd a = (dateKey pd a.timestamp).getD 0) ∧
    (dateKey pd a.registrationDate = none → dateKey pd a.timestamp = none →
      effTime pd a = 0) ∧
    (a.tokenId = none → a.id = none → numKey pn a = some 0) := by
  refine ⟨?_, ?_, ?_, ?_, ?_, ?_⟩
  · intro h
    have hne : effTime pd b ≠ effTime pd a := by omega
    simp only [sortAssetsDesc]
    rw [if_pos hne]
    simp only [cmpVal]
    omega
  · intro h
    have hne : effTime pd b ≠ effTime pd a := by omega
    simp only [sortAssetsDesc]
    rw [if_pos hne]
    simp only [cmpVal]
    omega
  · intro h
    simp [sortAssetsDesc, h]
  · intro h
    cases hts : dateKey pd a.timestamp <;> simp [effTime, h, hts]
  · intro h1 h2
    simp [effTime, h1, h2]
  · intro h1 h2
    simp [numKey, h1, h2]

/-- Witness for C2 at concrete inputs. -/
theorem sortAssetsDesc_orders_time_then_id_witness :
    (effTime pdc assetR5 < effTime pdc assetR9 ∧
      0 < cmpVal (sortAssetsDesc pdc pnc assetR5 assetR9)) ∧
    (effTime pdc assetR9 = effTime pdc assetR9 ∧
      sortAssetsDesc pdc pnc assetR9 assetR9 =
        jsSubKey (numKey pnc assetR9) (numKey pnc assetR9)) ∧
    (assetBare.tokenId = none ∧ assetBare.id = none ∧ numKey pnc assetBare = some 0) :=
  ⟨⟨by decide, (sortAssetsDesc_orders_time_then_id pdc pnc assetR5 assetR9).1 (by decide)⟩,
   ⟨rfl, (sortAssetsDesc_orders_time_then_id pdc pnc assetR9 assetR9).2.2.1 rfl⟩,
   ⟨rfl, rfl, (sortAssetsDesc_orders_time_then_id pdc pnc assetBare assetR9).2.2.2.2.2 rfl rfl⟩⟩

/-- C3: `loadMore` is a no-op when an advance is in flight or `hasMore`
is false; otherwise it sets `hasMore` false without changing the page
count when `filteredCount ≤ pageCount * 10`, and increments the page
count by one otherwise, clearing the in-flight flag in both outcome
branches; for a filtered list of 25 items successive advances show 10,
20, then 25 items, and a further advance sets `hasMore` false without
changing the visible count. -/
theorem loadMore_advances (n : Nat) (s : PagState) :
    (s.isPaging = true ∨ s.hasMore = false → loadMore n s = s) ∧
    (s.isPaging = false → s.hasMore = true →
      (n ≤ s.page * ASSETS_PER_PAGE →
        loadMore n s = { page := s.page, isPaging := false, hasMore := false }) ∧
      (s.page * ASSETS_PER_PAGE < n →
        loadMore n s = { page := s.page + 1, isPaging := false, hasMore := true })) ∧
    (∀ l : List Asset, l.length = 25 →
      (paginatedAssets l 1).length = 10 ∧
      loadMore 25 ⟨1, false, true⟩ = ⟨2, false, true⟩ ∧
      (paginatedAssets l 2).length = 20 ∧
      loadMore 25 ⟨2, false, true⟩ = ⟨3, false, true⟩ ∧
      (paginatedAssets l 3).length = 25 ∧
      loadMore 25 ⟨3, false, true⟩ = ⟨3, false, false⟩) := by
  obtain ⟨p, ip, hm⟩ := s
  refine ⟨?_, ?_, ?_⟩
  · rintro (h | h) <;> simp only at h <;> subst h <;> simp [loadMore]
  · intro h1 h2
    simp only at h1 h2
    subst h1; subst h2
    constructor
    · intro hn
      have hc : (n : Int) - (p : Int) * ((ASSETS_PER_PAGE : Nat) : Int) ≤ 0 := by
        simp only [ASSETS_PER_PAGE] at hn ⊢
        omega
      simp [loadMore, hc]
    · intro hn
      have hc : ¬((n : Int) - (p : Int) * ((ASSETS_PER_PAGE : Nat) : Int) ≤ 0) := by
        simp only [ASSETS_PER_PAGE] at hn ⊢
        omega
      simp [loadMore, hc]
  · intro l hl
    refine ⟨?_, by decide, ?_, by decide, ?_, by decide⟩ <;>
      simp [paginatedAssets, ASSETS_PER_PAGE, hl]

/-- Witness for C3 at concrete inputs. -/
theorem loadMore_advances_witness :
    loadMore 7 ⟨2, true, true⟩ = ⟨2, true, true⟩ ∧
    loadMore 25 ⟨1, false, true⟩ = ⟨2, false, true⟩ ∧
    loadMore 25 ⟨3, false, true⟩ = ⟨3, false, false⟩ ∧
    (paginatedAssets (List.replicate 25 assetR5) 2).length = 20 :=
  ⟨(loadMore_advances 7 ⟨2, true, true⟩).1 (Or.inl rfl),
   ((loadMore_advances 25 ⟨1, false, true⟩).2.1 rfl rfl).2 (by decide),
   ((loadMore_advances 25 ⟨3, false, true⟩).2.1 rfl rfl).1 (by decide),
   ((loadMore_advances 25 ⟨1, false, true⟩).2.2 (List.replicate 25 assetR5)
     (by simp)).2.2.1⟩

/-- C4: whenever the filter configuration changes by value (any field),
the pagination state is reset to page count 1 and `hasMore` true, even if
the filtered result set is unchanged by the new configuration. -/
theorem filtersChange_resets_pagination (oldF newF : FilterState) (s : PagState) :
    oldF ≠ newF →
    ((resetOnFiltersChange oldF newF s).page = 1 ∧
      (resetOnFiltersChange oldF newF s).hasMore = true) ∧
    (∀ (pd pn : String → Option Int) (lc : String → String → Int) (assets : List Asset),
      filteredAssets pd pn lc assets oldF = filteredAssets pd pn lc assets newF →
      (resetOnFiltersChange oldF newF s).page = 1 ∧
        (resetOnFiltersChange oldF newF s).hasMore = true) := by
  intro h
  refine ⟨?_, fun _ _ _ _ _ => ?_⟩ <;> simp [resetOnFiltersChange, h]

/-- Witness for C4: changing only the search string resets pagination,
here with a filtered result (over the empty collection) unchanged by the
new configuration. -/
theorem filtersChange_resets_pagination_witness :
    (defaultFilters ≠ { defaultFilters with search := "cat" }) ∧
    filteredAssets pdc pnc lcc [] defaultFilters =
      filteredAssets pdc pnc lcc [] { defaultFilters with search := "cat" } ∧
    (resetOnFiltersChange defaultFilters { defaultFilters with search := "cat" }
      ⟨3, false, false⟩).page = 1 ∧
    (resetOnFiltersChange defaultFilters { defaultFilters with search := "cat" }
      ⟨3, false, false⟩).hasMore = true :=
  ⟨by decide, by decide,
   ((filtersChange_resets_pagination defaultFilters
       { defaultFilters with search := "cat" } ⟨3, false, false⟩ (by decide)).2
     pdc pnc lcc [] (by decide)).1,
   ((filtersChange_resets_pagination defaultFilters
       { defaultFilters with search := "cat" } ⟨3, false, false⟩ (by decide)).2
     pdc pnc lcc [] (by decide)).2⟩

/-- C5: when the collection fetch fails, the loader publishes an empty
asset list and an error message derived from the failure
(`e?.message ?? "Failed to load timeline"`), leaves `isLoading` false and
the one-shot flag unset, so a subsequent `refetch` call performs the
fetch again. -/
theorem loadFailure_publishes_and_retries
    (pd pn : String → Option Int) (s : LoaderState) (msg : Option String)
    (outcome2 : Except (Option String) (List Asset)) :
    s.fetched = false →
    (loadCollectionOnce pd pn s (Except.error msg)).1.assets = [] ∧
    (loadCollectionOnce pd pn s (Except.error msg)).1.error =
      some (msg.getD "Failed to load timeline") ∧
    (loadCollectionOnce pd pn s (Except.error msg)).1.isLoading = false ∧
    (loadCollectionOnce pd pn s (Except.error msg)).1.fetched = false ∧
    (loadCollectionOnce pd pn (loadCollectionOnce pd pn s (Except.error msg)).1 outcome2).2
      = true := by
  intro h
  cases outcome2 <;> simp [loadCollectionOnce, h]

/-- Witness for C5 at concrete inputs. -/
theorem loadFailure_publishes_and_retries_witness :
    initLoader.fetched = false ∧
    (loadCollectionOnce pdc pnc initLoader (Except.error (some "boom"))).1.error =
      some "boom" ∧
    (loadCollectionOnce pdc pnc
      (loadCollectionOnce pdc pnc initLoader (Except.error (some "boom"))).1
      (Except.ok [assetR5])).2 = true :=
  ⟨rfl,
   (loadFailure_publishes_and_retries pdc pnc initLoader (some "boom")
     (Except.ok [assetR5]) rfl).2.1,
   (loadFailure_publishes_and_retries pdc pnc initLoader (some "boom")
     (Except.ok [assetR5]) rfl).2.2.2.2⟩

/-- C6 counterexample: after a successful fetch the one-shot flag is set,
so an explicit `refetch` (which is the same `loadCollectionOnce`
callback) performs no new request, contradicting the claim that `refetch`
always fetches again. -/
theorem refetch_after_success_noop_cex :
    (loadCollectionOnce pdc pnc
      (loadCollectionOnce pdc pnc initLoader (Except.ok [assetR5])).1
      (Except.ok [assetR5])).2 = false := by
  decide

/-- C6 amended: once the one-shot flag is set (after a successful fetch),
every invocation — implicit re-activation or explicit `refetch` — is a
no-op performing no request; a request is performed exactly when the flag
is unset. -/
theorem loadCollectionOnce_oneShot_guard
    (pd pn : String → Option Int) (s : LoaderState)
    (o : Except (Option String) (List Asset)) :
    (s.fetched = true → loadCollectionOnce pd pn s o = (s, false)) ∧
    (s.fetched = false → (loadCollectionOnce pd pn s o).2 = true) := by
  constructor
  · intro h
    simp [loadCollectionOnce, h]
  · intro h
    cases o <;> simp [loadCollectionOnce, h]

/-- Witness for the amended C6 at concrete inputs. -/
theorem loadCollectionOnce_oneShot_guard_witness :
    ((loadCollectionOnce pdc pnc initLoader (Except.ok [assetR5])).1.fetched = true ∧
      loadCollectionOnce pdc pnc
        (loadCollectionOnce pdc pnc initLoader (Except.ok [assetR5])).1
        (Except.ok []) =
        ((loadCollectionOnce pdc pnc initLoader (Except.ok [assetR5])).1, false)) ∧
    (initLoader.fetched = false ∧
      (loadCollectionOnce pdc pnc initLoader (Except.ok [assetR5])).2 = true) :=
  ⟨⟨by decide,
    (loadCollectionOnce_oneShot_guard pdc pnc
      (loadCollectionOnce pdc pnc initLoader (Except.ok [assetR5])).1
      (Except.ok [])).1 (by decide)⟩,
   ⟨rfl,
    (loadCollectionOnce_oneShot_guard pdc pnc initLoader (Except.ok [assetR5])).2 rfl⟩⟩

/-- C7 counterexample: from the initial state, two fetch triggers with no
intervening completion (e.g. the mount effect and an explicit `refetch`
while the first request is still awaited) both pass the
`if (fetchedRef.current) return` guard, because the flag is only set
after a successful completion — leaving two fetches in flight. -/
theorem concurrent_fetches_reachable_cex :
    (fetchTrigger (fetchTrigger { fetched := false, inFlight := 0 })).inFlight = 2 := by
  decide

/-- C7 amended: the one-shot completion flag coalesces fetch triggers
only once a fetch has completed successfully: with the flag set, a
trigger is a no-op and the flag stays set; while the first fetch is still
in flight the flag is unset and a trigger starts a concurrent fetch. -/
theorem fetchTrigger_coalesced_after_success (s : FetchSys) :
    (s.fetched = true → fetchTrigger s = s ∧
      ∀ b, (fetchResolve b s).fetched = true) ∧
    (s.fetched = false → (fetchTrigger s).inFlight = s.inFlight + 1) := by
  constructor
  · intro h
    refine ⟨by simp [fetchTrigger, h], fun b => by simp [fetchResolve, h]⟩
  · intro h
    simp [fetchTrigger, h]

/-- Witness for the amended C7 at concrete inputs. -/
theorem fetchTrigger_coalesced_after_success_witness :
    (fetchTrigger { fetched := true, inFlight := 0 } = { fetched := true, inFlight := 0 }) ∧
    ((fetchTrigger { fetched := false, inFlight := 1 }).inFlight = 2) :=
  ⟨((fetchTrigger_coalesced_after_success { fetched := true, inFlight := 0 }).1 rfl).1,
   (fetchTrigger_coalesced_after_success { fetched := false, inFlight := 1 }).2 rfl⟩

/-- The `popular` sort comparator as C8's words describe it: an absent or
unparsable timestamp is treated as time zero (spec-side definition, for
comparison with `popularCmp`). -/
def popularCmpZero (pd : String → Option Int) (a b : Asset) : Int :=
  (dateKey pd b.timestamp).getD 0 - (dateKey pd a.timestamp).getD 0

/-- C8 counterexample: in the `popular` sort mode an asset with an
unparsable timestamp is NOT treated as having timestamp zero — the
comparator evaluates to NaN, treated as a tie, so the asset keeps its
position ahead of a parsable-timestamp asset, whereas zero-treatment
would sort it last.  The code's result and the claim's zero-treatment
result differ on this concrete input. -/
theorem popular_sort_nan_not_zero_cex :
    filteredAssets pdc pnc lcc [assetTsBad, assetTs100]
      { defaultFilters with sortBy := "popular" } = [assetTsBad, assetTs100] ∧
    sortJs (popularCmpZero pdc)
      (filterOnly [assetTsBad, assetTs100] { defaultFilters with sortBy := "popular" }) =
      [assetTs100, assetTsBad] ∧
    filteredAssets pdc pnc lcc [assetTsBad, assetTs100]
      { defaultFilters with sortBy := "popular" } ≠
    sortJs (popularCmpZero pdc)
      (filterOnly [assetTsBad, assetTs100] { defaultFilters with sortBy := "popular" }) := by
  refine ⟨by decide, by decide, by decide⟩

/-- C8 amended: filtering, sorting and pagination are total — the derived
list is always a permutation of the filtered sublist of the input, never
an error.  In the default timeline comparator an absent or unparsable
date degrades to the fallback timestamp and then to zero; but in the
`popular` and `trending` sort modes an absent or unparsable date field
makes the comparison evaluate as a tie (a NaN comparator result is
treated as +0), leaving the affected asset's relative order unchanged,
rather than being treated as time zero. -/
theorem filter_sort_total_and_degrades
    (pd pn : String → Option Int) (lc : String → String → Int)
    (assets : List Asset) (f : FilterState) (a b : Asset) :
    (filteredAssets pd pn lc assets f).Perm (filterOnly assets f) ∧
    (filteredAssets pd pn lc assets f).length ≤ assets.length ∧
    (dateKey pd a.registrationDate = none → dateKey pd a.timestamp = none →
      effTime pd a = 0) ∧
    (dateKey pd a.timestamp = none → popularCmp pd a b = 0 ∧ popularCmp pd b a = 0) ∧
    (dateKey pd a.registrationDate = none →
      trendingCmp pd a b = 0 ∧ trendingCmp pd b a = 0) := by
  have hperm : (filteredAssets pd pn lc assets f).Perm (filterOnly assets f) := by
    unfold filteredAssets
    split
    · exact sortJs_perm _ _
    · split
      · exact sortJs_perm _ _
      · split
        · exact sortJs_perm _ _
        · exact List.Perm.refl _
  refine ⟨hperm, ?_, ?_, ?_, ?_⟩
  · calc (filteredAssets pd pn lc assets f).length
        = (filterOnly assets f).length := hperm.length_eq
      _ ≤ assets.length := (filterOnly_sublist assets f).length_le
  · intro h1 h2
    simp [effTime, h1, h2]
  · intro h
    cases hb : dateKey pd b.timestamp <;>
      simp [popularCmp, jsSubKey, h, hb, cmpVal]
  · intro h
    cases hb : dateKey pd b.registrationDate <;>
      simp [trendingCmp, jsSubKey, h, hb, cmpVal]

/-- Witness for the amended C8 at concrete inputs. -/
theorem filter_sort_total_and_degrades_witness :
    (dateKey pdc assetBare.registrationDate = none ∧
      dateKey pdc assetBare.timestamp = none ∧ effTime pdc assetBare = 0) ∧
    (dateKey pdc assetTsBad.timestamp = none ∧
      popularCmp pdc assetTsBad assetTs100 = 0) :=
  ⟨⟨rfl, rfl,
    (filter_sort_total_and_degrades pdc pnc lcc [] defaultFilters assetBare
      assetTs100).2.2.1 rfl rfl⟩,
   ⟨by decide,
    ((filter_sort_total_and_degrades pdc pnc lcc [] defaultFilters assetTsBad
      assetTs100).2.2.2.1 (by decide)).1⟩⟩

/-- C9: the date-range and price-range fields of the configuration exert
no effect on the filtered and sorted result: two configurations that
differ only in those fields derive identical visible sets. -/
theorem dateRange_priceRange_no_effect
    (pd pn : String → Option Int) (lc : String → String → Int)
    (assets : List Asset) (f : FilterState)
    (d1 d2 : String) (p1 p2 : Int × Int) :
    filteredAssets pd pn lc assets { f with dateRange := d1, priceRange := p1 } =
    filteredAssets pd pn lc assets { f with dateRange := d2, priceRange := p2 } := by
  cases f
  rfl

/-- C10: toggling an asset identifier's expansion adds it exactly when
absent and removes it exactly when present, leaves every other
identifier's membership unchanged, and toggling twice restores the
original expansion set. -/
theorem toggleExpanded_toggles (S : Finset String) (x : String) :
    (x ∉ S → toggleExpanded x S = insert x S) ∧
    (x ∈ S → toggleExpanded x S = S.erase x) ∧
    (∀ y, y ≠ x → (y ∈ toggleExpanded x S ↔ y ∈ S)) ∧
    (x ∈ toggleExpanded x S ↔ x ∉ S) ∧
    toggleExpanded x (toggleExpanded x S) = S := by
  by_cases h : x ∈ S
  · refine ⟨fun hx => absurd h hx, fun _ => by simp [toggleExpanded, h], ?_, ?_, ?_⟩
    · intro y hy
      simp [toggleExpanded, h, Finset.mem_erase, hy]
    · simp [toggleExpanded, h]
    · simp [toggleExpanded, h, Finset.insert_erase]
  · refine ⟨fun _ => by simp [toggleExpanded, h], fun hx => absurd hx h, ?_, ?_, ?_⟩
    · intro y hy
      simp [toggleExpanded, h, Finset.mem_insert, hy]
    · simp [toggleExpanded, h]
    · simp [toggleExpanded, h, Finset.erase_insert]

/-- Witness for C10 at concrete inputs. -/
theorem toggleExpanded_toggles_witness :
    ("b" ∉ ({"a"} : Finset String) ∧
      toggleExpanded "b" {"a"} = insert "b" {"a"}) ∧
    ("a" ∈ ({"a"} : Finset String) ∧
      toggleExpanded "a" {"a"} = Finset.erase {"a"} "a") ∧
    ("a" ≠ "b" ∧ ("a" ∈ toggleExpanded "b" {"a"} ↔ "a" ∈ ({"a"} : Finset String))) :=
  ⟨⟨by decide, (toggleExpanded_toggles {"a"} "b").1 (by decide)⟩,
   ⟨by decide, (toggleExpanded_toggles {"a"} "a").2.1 (by decide)⟩,
   ⟨by decide, (toggleExpanded_toggles {"a"} "b").2.2.1 "a" (by decide)⟩⟩

end MipDapp

